import Mathlib

/-!
Verification of the bounded-history memory-trend monitor of
`node-memory-leak` (`src/lib/memory-monitor.js` and the functional
utilities it imports) against its natural-language specification.

Conventions of the embedding:
* JavaScript numbers that carry memory byte counts, thresholds and growth
  rates are modelled as rationals (`ℚ`); the concrete test values of the
  spec are exact in `ℚ` and every comparison the code performs on them
  has the same outcome as in binary floating point.
* The mutable `snapshots` buffer of `createMemoryMonitor` is passed
  explicitly; one timer tick of the closure `monitor` becomes a function
  from the old buffer (plus the sampled snapshot) to the new buffer
  together with an optional `onLeak` invocation.
* The host timer table (`setInterval` / `clearInterval`) and, for the
  copy-out claim, the JavaScript heap of array objects are modelled as
  explicit state (`TimerSystem`, `Store`).
* `src/lib/functional-utils.js` is imported by the monitor but the file
  itself is absent from the sources; the definitions taken from it are
  either quoted verbatim in `src/README.md` / `src/QUICK-REFERENCE.md`
  (`append`, `createTimerCleanup`) or are modelled from the spec
  (`keepLast`, `analyzeTrend`), as their doc comments state.
-/

/-- A memory snapshot as described by the spec's data model (§3): a
timestamp plus the byte counters reported by the host runtime. -/
structure Snapshot where
  timestamp : ℕ
  rss : ℚ
  heapTotal : ℚ
  heapUsed : ℚ
  external : ℚ
deriving DecidableEq, Repr

/-- Abbreviation used to build concrete snapshots: only `timestamp` and
`heapUsed` matter to the trend analysis. -/
def snap (t : ℕ) (h : ℚ) : Snapshot :=
  ⟨t, 0, 0, h, 0⟩

/-- `append` from `src/lib/functional-utils.js`, quoted in
`src/QUICK-REFERENCE.md`: `const append = (item) => (arr) => [...arr, item]`. -/
def append (item : α) (arr : List α) : List α :=
  arr ++ [item]

/-- Modelled from the spec: `keepLast` of `src/lib/functional-utils.js`
(file absent from `src/`).  Per §3 the history buffer is bounded to
`maxSnapshots` with insertion at the tail and eviction from the head
(strict FIFO), so `keepLast n` keeps the `n` most recent elements. -/
def keepLast (n : ℕ) (arr : List α) : List α :=
  arr.drop (arr.length - n)

/-- The qualitative confidence label of a trend result (§3). -/
inductive Confidence where
  | insufficient_data
  | low
  | high
deriving DecidableEq, Repr

/-- A trend result as described by the spec (§3). -/
structure TrendResult where
  isGrowing : Bool
  growthRatePercent : ℚ
  confidence : Confidence
deriving DecidableEq, Repr

/-- Modelled from the spec (§4.2): rounding half away from zero. -/
def roundHalfAwayFromZero (q : ℚ) : ℤ :=
  if 0 ≤ q then ⌊q + 1/2⌋ else -⌊-q + 1/2⌋

/-- Rounding to two decimal places (§4.2). -/
def round2 (q : ℚ) : ℚ :=
  (roundHalfAwayFromZero (q * 100) : ℚ) / 100

/-- Modelled from the spec: `analyzeTrend` of
`src/lib/functional-utils.js` (file absent from `src/`), following §4.2
and the worked values of §8: fewer than 2 snapshots yield
`insufficient_data` without touching the threshold; a non-positive first
`heapUsed` is guarded to "no growth"; otherwise the first and last
snapshots are compared and `isGrowing` holds when
`last.heapUsed > first.heapUsed * threshold`; confidence is `high` from
5 samples on, `low` below. -/
def analyzeTrend (snapshots : List Snapshot) (threshold : ℚ) : TrendResult :=
  if h : snapshots.length < 2 then
    ⟨false, 0, Confidence.insufficient_data⟩
  else
    have hne : snapshots ≠ [] := List.length_pos.mp (by omega)
    let first := snapshots.head hne
    let last := snapshots.getLast hne
    let conf := if 5 ≤ snapshots.length then Confidence.high else Confidence.low
    if first.heapUsed ≤ 0 then
      ⟨false, 0, conf⟩
    else
      ⟨decide (first.heapUsed * threshold < last.heapUsed),
       round2 ((last.heapUsed - first.heapUsed) / first.heapUsed * 100),
       conf⟩

/-- The configuration record of `createMemoryMonitor`
(`src/lib/memory-monitor.js`), with the source's defaults.  The `onLeak`
callback itself is outside the state; `hasOnLeak` records whether one was
supplied (`onLeak = null` by default). -/
structure MonitorConfig where
  interval : ℕ := 1000
  maxSnapshots : ℕ := 10
  threshold : ℚ := 11/10
  hasOnLeak : Bool := false
deriving DecidableEq, Repr

/-- `addSnapshot` of `createMemoryMonitor`:
`keepLast(maxSnapshots)(append(snapshot)(snapshots))`, with the buffer
passed explicitly. -/
def addSnapshot (maxSnapshots : ℕ) (snapshots : List Snapshot)
    (snapshot : Snapshot) : List Snapshot :=
  keepLast maxSnapshots (append snapshot snapshots)

/-- One timer tick of the closure `monitor` in `createMemoryMonitor`,
with the snapshot sampled by `getMemorySnapshot()` given explicitly.
Returns the new buffer, and `some trend` exactly when the tick invoked
`onLeak` with `trend`: the source runs the analysis only when
`updated.length >= 5`, and calls `onLeak` when `trend.isGrowing && onLeak`. -/
def monitorTick (cfg : MonitorConfig) (snapshots : List Snapshot)
    (snapshot : Snapshot) : List Snapshot × Option TrendResult :=
  let updated := addSnapshot cfg.maxSnapshots snapshots snapshot
  (updated,
   if 5 ≤ updated.length then
     let trend := analyzeTrend updated cfg.threshold
     if trend.isGrowing && cfg.hasOnLeak then some trend else none
   else none)

/-- Running the monitor over a list of sampled snapshots, one per tick,
from the given buffer: returns the final buffer and the list of `onLeak`
invocations in order. -/
def runMonitor (cfg : MonitorConfig) (buf : List Snapshot) :
    List Snapshot → List Snapshot × List TrendResult
  | [] => (buf, [])
  | s :: rest =>
    let step := monitorTick cfg buf s
    let next := runMonitor cfg step.1 rest
    (next.1, step.2.toList ++ next.2)

/-- Errors of the host runtime (the `Error` object a failing
`getMemorySnapshot()` would throw), identified by an error code. -/
abbrev ErrCode := ℕ

/-- One timer tick of `monitor` in `createMemoryMonitor` when the Snapshot
Source may fail, the sampled outcome given explicitly.  The source body
`const snapshot = getMemorySnapshot(); ...` has no try/catch: a failure
aborts the tick before the buffer is touched, the error propagates into
the host scheduling context, and nothing clears the interval timer, so
the timer-active flag is returned unchanged. -/
def monitorTickE (cfg : MonitorConfig) (timerActive : Bool)
    (buf : List Snapshot) (sample : Except ErrCode Snapshot) :
    Except ErrCode (List Snapshot × Option TrendResult) × Bool :=
  match sample with
  | .error e => (.error e, timerActive)
  | .ok s => (.ok (monitorTick cfg buf s), timerActive)

deriving instance DecidableEq for Except

/-- The state of one `monitorForDuration` run: the collected snapshots,
whether its interval has been cleared, and the settled promise value
(`none` while pending). -/
structure DurState where
  snapshots : List Snapshot
  timerCleared : Bool
  result : Option (Except ErrCode (List Snapshot))
deriving DecidableEq, Repr

/-- One interval tick of `monitorForDuration`: after `clearInterval` no
tick runs any more; a successful sample is pushed; a failing
`getMemorySnapshot()` is caught, the interval is cleared and the promise
is rejected with the error. -/
def durTick (st : DurState) (sample : Except ErrCode Snapshot) : DurState :=
  if st.timerCleared then st
  else
    match sample with
    | .error e => { st with timerCleared := true, result := some (.error e) }
    | .ok s => { st with snapshots := st.snapshots ++ [s] }

/-- The host timer table: the next fresh interval id and the list of
active interval ids. -/
structure TimerSystem where
  nextId : ℕ
  active : List ℕ
deriving DecidableEq, Repr

/-- `clearInterval` of the host: deactivates the id; clearing an id that
is not active is a silent no-op. -/
def clearInterval (timerId : ℕ) (ts : TimerSystem) : TimerSystem :=
  { ts with active := ts.active.filter (fun i => i ≠ timerId) }

/-- `createTimerCleanup` from `src/lib/functional-utils.js`, quoted in
`src/README.md`: `const createTimerCleanup = timerId => () => clearInterval(timerId)`.
The returned stop handle, applied to the host timer table. -/
def createTimerCleanup (timerId : ℕ) : TimerSystem → TimerSystem :=
  fun ts => clearInterval timerId ts

/-- `start` of `createMemoryMonitor`:
`const timerId = setInterval(monitor, interval); return createTimerCleanup(timerId)`.
`setInterval` allocates a fresh interval id; `start` returns it (the stop
handle is `createTimerCleanup` of it) together with the new timer table. -/
def start (ts : TimerSystem) : ℕ × TimerSystem :=
  (ts.nextId, ⟨ts.nextId + 1, ts.active ++ [ts.nextId]⟩)

/-- The host scheduler fires the interval `timerId`: the `monitor`
callback runs only when the id is still active; otherwise nothing
happens (no tick, buffer unchanged, no `onLeak`). -/
def fireTick (cfg : MonitorConfig) (ts : TimerSystem) (timerId : ℕ)
    (buf : List Snapshot) (s : Snapshot) : List Snapshot × Option TrendResult :=
  if timerId ∈ ts.active then monitorTick cfg buf s else (buf, none)

/-- The JavaScript heap of array objects, used to state the copy-out
semantics of `getSnapshots`: a cell per array, indexed by reference. -/
structure Store where
  cells : List (List Snapshot)
deriving DecidableEq, Repr

/-- Dereference an array: the contents of cell `r`. -/
def readCell (st : Store) (r : ℕ) : List Snapshot :=
  st.cells.getD r []

/-- Mutate the array behind reference `r` in place. -/
def writeCell (st : Store) (r : ℕ) (v : List Snapshot) : Store :=
  ⟨st.cells.set r v⟩

/-- `getSnapshots` of `createMemoryMonitor`: `() => [...snapshots]`.
The spread allocates a fresh array cell holding a copy of the buffer
behind `r` and returns the new reference together with the grown heap. -/
def getSnapshotsRef (st : Store) (r : ℕ) : ℕ × Store :=
  (st.cells.length, ⟨st.cells ++ [readCell st r]⟩)

/-! ### Helper lemmas -/

theorem keepLast_length_le (n : ℕ) (l : List α) : (keepLast n l).length ≤ n := by
  simp [keepLast]
  omega

theorem keepLast_eq_self {n : ℕ} {l : List α} (h : l.length ≤ n) : keepLast n l = l := by
  simp [keepLast, Nat.sub_eq_zero_of_le h]

theorem keepLast_suffix (n : ℕ) (l : List α) : keepLast n l <:+ l :=
  List.drop_suffix _ _

theorem keepLast_nil (n : ℕ) : keepLast n ([] : List α) = [] := by
  simp [keepLast]

theorem keepLast_append (n : ℕ) (l l₂ : List α) :
    keepLast n (keepLast n l ++ l₂) = keepLast n (l ++ l₂) := by
  by_cases h : l.length ≤ n
  · rw [keepLast_eq_self h]
  · have hj : l.length - n ≤ l.length := Nat.sub_le _ _
    unfold keepLast
    rw [← List.drop_append_of_le_length hj, List.drop_drop]
    congr 1
    simp
    omega

theorem addSnapshot_eq (m : ℕ) (buf : List Snapshot) (s : Snapshot) :
    addSnapshot m buf s = keepLast m (buf ++ [s]) := rfl

theorem monitorTick_fst (cfg : MonitorConfig) (buf : List Snapshot) (s : Snapshot) :
    (monitorTick cfg buf s).1 = addSnapshot cfg.maxSnapshots buf s := rfl

theorem foldl_addSnapshot (m : ℕ) :
    ∀ (samples acc : List Snapshot),
      samples.foldl (addSnapshot m) (keepLast m acc) = keepLast m (acc ++ samples)
  | [], acc => by simp
  | s :: rest, acc => by
    rw [List.foldl_cons]
    have hstep : addSnapshot m (keepLast m acc) s = keepLast m (acc ++ [s]) := by
      rw [addSnapshot_eq]
      exact keepLast_append m acc [s]
    rw [hstep, foldl_addSnapshot m rest (acc ++ [s])]
    simp

theorem runMonitor_fst (cfg : MonitorConfig) :
    ∀ (samples buf : List Snapshot),
      (runMonitor cfg buf samples).1 = samples.foldl (addSnapshot cfg.maxSnapshots) buf
  | [], _ => rfl
  | s :: rest, buf => by
    show (runMonitor cfg (monitorTick cfg buf s).1 rest).1 = _
    rw [runMonitor_fst cfg rest (monitorTick cfg buf s).1, monitorTick_fst]
    rfl

theorem runMonitor_buffer (cfg : MonitorConfig) (samples : List Snapshot) :
    (runMonitor cfg [] samples).1 = keepLast cfg.maxSnapshots samples := by
  rw [runMonitor_fst]
  have h := foldl_addSnapshot cfg.maxSnapshots samples []
  rw [keepLast_nil] at h
  simpa using h

theorem monitorTick_snd_none_of_small {cfg : MonitorConfig}
    (h : cfg.maxSnapshots ≤ 4) (buf : List Snapshot) (s : Snapshot) :
    (monitorTick cfg buf s).2 = none := by
  have hlen : (addSnapshot cfg.maxSnapshots buf s).length ≤ cfg.maxSnapshots :=
    keepLast_length_le _ _
  simp only [monitorTick]
  rw [if_neg]
  omega

/-! ### Claims -/

/-- Claim C5 (confirmed): for every monitor configuration and every
sequence of sampled snapshots, after every tick the history buffer holds
at most `maxSnapshots` entries; the buffer is exactly the `maxSnapshots`
most recent appended snapshots and is a suffix of the full append-order
sequence, i.e. insertion is at the tail and eviction removes the oldest
entries from the head (strict FIFO). -/
theorem monitor_buffer_fifo_bound (cfg : MonitorConfig) (samples : List Snapshot) :
    ((runMonitor cfg [] samples).1).length ≤ cfg.maxSnapshots ∧
    (runMonitor cfg [] samples).1 = keepLast cfg.maxSnapshots samples ∧
    (runMonitor cfg [] samples).1 <:+ samples := by
  have hb := runMonitor_buffer cfg samples
  exact ⟨hb ▸ keepLast_length_le _ _, hb, hb ▸ keepLast_suffix _ _⟩

/-- Claim C3 (confirmed): a monitor whose `maxSnapshots` is at most 4
never invokes `onLeak` on any tick, whatever the samples: each tick caps
the buffer at `maxSnapshots` entries and the tick analyses only when the
buffer holds at least 5 snapshots. -/
theorem small_capacity_never_onLeak (cfg : MonitorConfig) (h : cfg.maxSnapshots ≤ 4)
    (buf samples : List Snapshot) : (runMonitor cfg buf samples).2 = [] := by
  induction samples generalizing buf with
  | nil => rfl
  | cons s rest ih =>
    simp [runMonitor, monitorTick_snd_none_of_small h, ih]

/-- Claim C3, witness: a monitor with `maxSnapshots = 4` and a leak
callback fires no `onLeak` on a doubling heap. -/
theorem small_capacity_never_onLeak_witness :
    (runMonitor ⟨100, 4, 11/10, true⟩ [] [snap 0 100, snap 1 200]).2 = [] :=
  small_capacity_never_onLeak ⟨100, 4, 11/10, true⟩ (by decide) [] [snap 0 100, snap 1 200]

/-- Claim C1 (corrected): on each tick the Trend Analyzer runs, over the
full current buffer and the configured threshold, exactly when the buffer
holds at least 5 snapshots after appending — not 2 as the spec states —
and then, if `isGrowing` is true and an `onLeak` callback was supplied,
`onLeak` is invoked synchronously with that Trend Result on the same
tick; below 5 snapshots the tick never invokes `onLeak`. -/
theorem tick_gate_five (cfg : MonitorConfig) (buf : List Snapshot) (s : Snapshot) :
    ((addSnapshot cfg.maxSnapshots buf s).length < 5 → (monitorTick cfg buf s).2 = none) ∧
    (5 ≤ (addSnapshot cfg.maxSnapshots buf s).length →
      (analyzeTrend (addSnapshot cfg.maxSnapshots buf s) cfg.threshold).isGrowing = true →
      cfg.hasOnLeak = true →
      (monitorTick cfg buf s).2 =
        some (analyzeTrend (addSnapshot cfg.maxSnapshots buf s) cfg.threshold)) := by
  constructor
  · intro h
    simp only [monitorTick]
    rw [if_neg (by omega)]
  · intro h hg hcb
    simp only [monitorTick]
    rw [if_pos h]
    simp [hg, hcb]

/-- The buffer of four flat samples plus a fifth at 140 is analysed as
growing at threshold 1.1 (used to discharge the hypotheses of the C1
witness). -/
theorem c1wit_growing :
    (analyzeTrend (addSnapshot 10 [snap 0 100, snap 1 100, snap 2 100, snap 3 100] (snap 4 140))
      (11/10)).isGrowing = true := by
  simp [analyzeTrend, addSnapshot, append, keepLast, snap]
  norm_num

/-- Claim C1, witness: with five snapshots in the buffer, a supplied
callback and a growing trend, the tick invokes `onLeak` with the Trend
Result. -/
theorem tick_gate_five_witness :
    (monitorTick ⟨1000, 10, 11/10, true⟩ [snap 0 100, snap 1 100, snap 2 100, snap 3 100]
      (snap 4 140)).2 =
    some (analyzeTrend (addSnapshot 10 [snap 0 100, snap 1 100, snap 2 100, snap 3 100]
      (snap 4 140)) (11/10)) :=
  (tick_gate_five ⟨1000, 10, 11/10, true⟩ [snap 0 100, snap 1 100, snap 2 100, snap 3 100]
    (snap 4 140)).2 (by decide) c1wit_growing rfl

/-- Claim C1, counterexample to the claim as stated: with a supplied
callback, a buffer of 2 snapshots after appending, and a trend the
analyzer marks as growing at the configured threshold, the tick still
invokes no `onLeak` — the source gates the analysis at 5 snapshots, not 2. -/
theorem tick_gate_five_counterexample :
    (⟨1000, 10, 11/10, true⟩ : MonitorConfig).hasOnLeak = true ∧
    2 ≤ (addSnapshot 10 [snap 0 100] (snap 1 140)).length ∧
    (analyzeTrend (addSnapshot 10 [snap 0 100] (snap 1 140)) (11/10)).isGrowing = true ∧
    (monitorTick ⟨1000, 10, 11/10, true⟩ [snap 0 100] (snap 1 140)).2 = none := by
  refine ⟨rfl, by decide, ?_, by decide⟩
  simp [analyzeTrend, addSnapshot, append, keepLast, snap]
  norm_num

/-- Claim C2, counterexample to the claim as stated: in the end-to-end
scenario `{interval: 100, maxSnapshots: 3, threshold: 1.1}` with
`heapUsed` samples 100, 100, 140 on ticks one to three, `onLeak` has NOT
been invoked exactly once after the third tick. -/
theorem scenario_counterexample :
    ¬ ((runMonitor ⟨100, 3, 11/10, true⟩ [] [snap 1 100, snap 2 100, snap 3 140]).2.length = 1) := by
  decide

/-- Claim C2 (corrected): in the end-to-end scenario the buffer ends as
the three samples but `onLeak` is never invoked, because the capped
buffer never reaches the 5 snapshots the tick requires before analysing;
the two-point trend over that final buffer would indeed be growing with
`growthRatePercent = 40.00`. -/
theorem scenario_no_fire :
    runMonitor ⟨100, 3, 11/10, true⟩ [] [snap 1 100, snap 2 100, snap 3 140] =
      ([snap 1 100, snap 2 100, snap 3 140], []) ∧
    analyzeTrend [snap 1 100, snap 2 100, snap 3 140] (11/10) =
      ⟨true, 40, Confidence.low⟩ := by
  refine ⟨by decide, ?_⟩
  simp [analyzeTrend, snap, round2, roundHalfAwayFromZero]
  norm_num

/-- Claim C8 (confirmed): for every snapshot sequence with fewer than 2
elements and every threshold, `analyzeTrend` returns exactly
`{isGrowing: false, growthRatePercent: 0, confidence: "insufficient_data"}`,
for all thresholds alike and without failing. -/
theorem analyzer_insufficient_data (snapshots : List Snapshot) (t : ℚ)
    (h : snapshots.length < 2) :
    analyzeTrend snapshots t = ⟨false, 0, Confidence.insufficient_data⟩ := by
  unfold analyzeTrend
  rw [dif_pos h]

/-- Claim C8, witness: a one-element buffer yields the insufficient-data
result even at a nonsensical threshold. -/
theorem analyzer_insufficient_data_witness :
    analyzeTrend [snap 0 100] 5 = ⟨false, 0, Confidence.insufficient_data⟩ :=
  analyzer_insufficient_data [snap 0 100] 5 (by decide)

/-- Claim C6 (corrected): for every snapshot sequence with at least 2
elements whose FIRST element has positive `heapUsed`, and every
threshold, `isGrowing` holds exactly when the last element's `heapUsed`
strictly exceeds the first element's `heapUsed` times the threshold
(when the first `heapUsed` is not positive the guard forces `isGrowing`
false instead); in particular 100 → 120 at threshold 1.1 is growing with
rate 20.00 and 100 → 105 is not growing with rate 5.00. -/
theorem analyzer_isGrowing_iff :
    (∀ (first s2 : Snapshot) (rest : List Snapshot) (t : ℚ), 0 < first.heapUsed →
      ((analyzeTrend (first :: s2 :: rest) t).isGrowing = true ↔
        first.heapUsed * t < ((s2 :: rest).getLast (List.cons_ne_nil s2 rest)).heapUsed)) ∧
    analyzeTrend [snap 0 100, snap 1 120] (11/10) = ⟨true, 20, Confidence.low⟩ ∧
    analyzeTrend [snap 0 100, snap 1 105] (11/10) = ⟨false, 5, Confidence.low⟩ := by
  refine ⟨?_, ?_, ?_⟩
  · intro first s2 rest t h
    unfold analyzeTrend
    rw [dif_neg (by simp)]
    simp only [List.head_cons, List.getLast_cons (List.cons_ne_nil s2 rest)]
    rw [if_neg (not_le.mpr h)]
    simp
  · simp [analyzeTrend, snap, round2, roundHalfAwayFromZero]
    norm_num
  · simp [analyzeTrend, snap, round2, roundHalfAwayFromZero]
    norm_num

/-- Claim C6, witness: the biconditional instantiated at the 100 → 120
sequence with threshold 1.1. -/
theorem analyzer_isGrowing_iff_witness :
    (analyzeTrend [snap 0 100, snap 1 120] (11/10)).isGrowing = true ↔
      (snap 0 100).heapUsed * (11/10) <
        (([snap 1 120] : List Snapshot).getLast (List.cons_ne_nil _ _)).heapUsed :=
  analyzer_isGrowing_iff.1 (snap 0 100) (snap 1 120) [] (11/10) (by decide)

/-- Claim C6, counterexample to the claim as stated: with first
`heapUsed = 0` and last `heapUsed = 5` at threshold 1.1, the last value
strictly exceeds first times threshold, yet the division-by-zero guard
makes `isGrowing` false, so the claimed biconditional fails. -/
theorem analyzer_isGrowing_iff_counterexample :
    ¬ (((analyzeTrend [snap 0 0, snap 1 5] (11/10)).isGrowing = true) ↔
        ((snap 0 0).heapUsed * (11/10) <
          (([snap 1 5] : List Snapshot).getLast (List.cons_ne_nil _ _)).heapUsed)) := by
  intro hiff
  have hlt : (snap 0 0).heapUsed * (11/10) <
      (([snap 1 5] : List Snapshot).getLast (List.cons_ne_nil _ _)).heapUsed := by
    simp [snap]
  have hg := hiff.mpr hlt
  have hng : (analyzeTrend [snap 0 0, snap 1 5] (11/10)).isGrowing = false := by
    simp [analyzeTrend, snap]
  rw [hng] at hg
  exact Bool.false_ne_true hg

/-- Claim C7 (confirmed): on a sequence of at least 2 snapshots whose
first element has `heapUsed ≤ 0`, the analyzer returns
`growthRatePercent = 0` and no growth, with no division fault; with a
positive first `heapUsed` the rate is
`(last.heapUsed - first.heapUsed) / first.heapUsed * 100` rounded to two
decimal places (half away from zero). -/
theorem analyzer_zero_first_guard :
    ∀ (first s2 : Snapshot) (rest : List Snapshot) (t : ℚ),
      (first.heapUsed ≤ 0 →
        (analyzeTrend (first :: s2 :: rest) t).growthRatePercent = 0 ∧
        (analyzeTrend (first :: s2 :: rest) t).isGrowing = false) ∧
      (0 < first.heapUsed →
        (analyzeTrend (first :: s2 :: rest) t).growthRatePercent =
          round2 ((((s2 :: rest).getLast (List.cons_ne_nil s2 rest)).heapUsed - first.heapUsed)
            / first.heapUsed * 100)) := by
  intro first s2 rest t
  constructor
  · intro h
    unfold analyzeTrend
    rw [dif_neg (by simp)]
    simp only [List.head_cons]
    rw [if_pos h]
    exact ⟨rfl, rfl⟩
  · intro h
    unfold analyzeTrend
    rw [dif_neg (by simp)]
    simp only [List.head_cons, List.getLast_cons (List.cons_ne_nil s2 rest)]
    rw [if_neg (not_le.mpr h)]

/-- Claim C7, witness: a first `heapUsed` of 0 yields rate 0 and no
growth at threshold 1.1. -/
theorem analyzer_zero_first_guard_witness :
    (analyzeTrend [snap 0 0, snap 1 5] (11/10)).growthRatePercent = 0 ∧
    (analyzeTrend [snap 0 0, snap 1 5] (11/10)).isGrowing = false :=
  (analyzer_zero_first_guard (snap 0 0) (snap 1 5) [] (11/10)).1 (by decide)

/-- Claim C4, counterexample to the claim as stated: when the Snapshot
Source fails on a tick of a Running `createMemoryMonitor` monitor, the
interval timer stays active — the monitor does not stop scheduling
further ticks — and the error merely propagates out of the tick into the
host scheduling context. -/
theorem failure_stops_ticks_counterexample :
    (monitorTickE ⟨1000, 10, 11/10, true⟩ true [] (Except.error 3)).2 = true ∧
    (monitorTickE ⟨1000, 10, 11/10, true⟩ true [] (Except.error 3)).1 = Except.error 3 := by
  decide

/-- Claim C4 (corrected): a Snapshot Source failure in
`createMemoryMonitor` aborts the tick with the propagating error,
leaving the buffer untouched and the interval timer scheduled; only
`monitorForDuration` implements the claimed semantics — a failed sample
clears its interval, rejects its promise with the error, and every later
tick is a no-op, with no retry. -/
theorem failure_semantics :
    (∀ (cfg : MonitorConfig) (act : Bool) (buf : List Snapshot) (e : ErrCode),
      monitorTickE cfg act buf (Except.error e) = (Except.error e, act)) ∧
    (∀ (st : DurState) (e : ErrCode), st.timerCleared = false →
      (durTick st (Except.error e)).timerCleared = true ∧
      (durTick st (Except.error e)).result = some (Except.error e) ∧
      ∀ sample, durTick (durTick st (Except.error e)) sample = durTick st (Except.error e)) := by
  constructor
  · intro cfg act buf e
    rfl
  · intro st e h
    simp only [durTick, h]
    simp

/-- Claim C4, witness: a fresh `monitorForDuration` run whose first
sample fails clears its timer, rejects with the error, and ignores a
later successful sample. -/
theorem failure_semantics_witness :
    (durTick ⟨[], false, none⟩ (Except.error 7)).timerCleared = true ∧
    durTick (durTick ⟨[], false, none⟩ (Except.error 7)) (Except.ok (snap 9 1)) =
      durTick ⟨[], false, none⟩ (Except.error 7) :=
  ⟨(failure_semantics.2 ⟨[], false, none⟩ 7 rfl).1,
   (failure_semantics.2 ⟨[], false, none⟩ 7 rfl).2.2 (Except.ok (snap 9 1))⟩

/-- Claim C9 (confirmed): the stop handle returned by `start()` is
idempotent — applying it again after it has run changes nothing further
in the host timer table (and, being a total function, raises nothing) —
and once it has run, firing the monitor's interval id produces no tick:
the buffer is unchanged and no `onLeak` occurs. -/
theorem stop_handle_idempotent (timerId : ℕ) (ts : TimerSystem) (cfg : MonitorConfig)
    (buf : List Snapshot) (s : Snapshot) :
    createTimerCleanup timerId (createTimerCleanup timerId ts) = createTimerCleanup timerId ts ∧
    fireTick cfg (createTimerCleanup timerId ts) timerId buf s = (buf, none) := by
  constructor
  · simp only [createTimerCleanup, clearInterval]
    congr 1
    rw [List.filter_filter]
    simp
  · simp only [fireTick, createTimerCleanup, clearInterval]
    rw [if_neg]
    simp [List.mem_filter]

/-- Claim C10 (confirmed): `getSnapshots()` returns a fresh reference
holding a point-in-time copy of the buffer; however the caller mutates
the returned array, the monitor's own cell is unchanged, and so is any
`analyzeTrend` computed from it afterwards. -/
theorem getSnapshots_copy_out (st : Store) (r : ℕ) (f : List Snapshot → List Snapshot)
    (t : ℚ) (h : r < st.cells.length) :
    readCell (getSnapshotsRef st r).2 (getSnapshotsRef st r).1 = readCell st r ∧
    readCell (writeCell (getSnapshotsRef st r).2 (getSnapshotsRef st r).1
        (f (readCell (getSnapshotsRef st r).2 (getSnapshotsRef st r).1))) r = readCell st r ∧
    analyzeTrend (readCell (writeCell (getSnapshotsRef st r).2 (getSnapshotsRef st r).1
        (f (readCell (getSnapshotsRef st r).2 (getSnapshotsRef st r).1))) r) t
      = analyzeTrend (readCell st r) t := by
  have hcopy : readCell (getSnapshotsRef st r).2 (getSnapshotsRef st r).1 = readCell st r := by
    simp [getSnapshotsRef, readCell]
  have hframe : ∀ v, readCell (writeCell (getSnapshotsRef st r).2 (getSnapshotsRef st r).1 v) r
      = readCell st r := by
    intro v
    simp [getSnapshotsRef, writeCell, readCell]
    rw [List.getElem?_append, if_pos h]
  exact ⟨hcopy, hframe _, by rw [hframe]⟩

/-- Claim C10, witness: on a one-cell heap holding the buffer
`[snap 0 100]`, emptying the copy returned by `getSnapshots` leaves the
monitor's cell and its trend analysis unchanged. -/
theorem getSnapshots_copy_out_witness :
    readCell (getSnapshotsRef ⟨[[snap 0 100]]⟩ 0).2 (getSnapshotsRef ⟨[[snap 0 100]]⟩ 0).1
      = readCell ⟨[[snap 0 100]]⟩ 0 ∧
    readCell (writeCell (getSnapshotsRef ⟨[[snap 0 100]]⟩ 0).2 (getSnapshotsRef ⟨[[snap 0 100]]⟩ 0).1
        ((fun _ => ([] : List Snapshot))
          (readCell (getSnapshotsRef ⟨[[snap 0 100]]⟩ 0).2 (getSnapshotsRef ⟨[[snap 0 100]]⟩ 0).1))) 0
      = readCell ⟨[[snap 0 100]]⟩ 0 ∧
    analyzeTrend (readCell (writeCell (getSnapshotsRef ⟨[[snap 0 100]]⟩ 0).2
        (getSnapshotsRef ⟨[[snap 0 100]]⟩ 0).1
        ((fun _ => ([] : List Snapshot))
          (readCell (getSnapshotsRef ⟨[[snap 0 100]]⟩ 0).2 (getSnapshotsRef ⟨[[snap 0 100]]⟩ 0).1))) 0) 1
      = analyzeTrend (readCell ⟨[[snap 0 100]]⟩ 0) 1 :=
  getSnapshots_copy_out ⟨[[snap 0 100]]⟩ 0 (fun _ => []) 1 (by decide)
